import Mathlib

/-!
Shallow embedding of `bitwarden_manager.py` (AutoBackup repository).

The external `bw` tool is modelled as an environment: a function from the
full argument vector of a spawned process to the list of output lines it
produces, together with a function modelling `json.loads` on a line of
output.  `BitwardenCommander` becomes explicit state passing over a record
holding the session key; every operation additionally returns the trace of
externally visible events (process dispatches and observer notifications),
and Python exceptions become an `Except` error code.
-/

namespace AutoBackup

/-- JSON values as produced by Python's `json.loads`. -/
inductive JVal where
  | jstr (s : String)
  | jnum (n : Int)
  | jbool (b : Bool)
  | jnull
  | jarr (elems : List JVal)
  | jobj (fields : List (String × JVal))
deriving Repr

/-- Decidable equality for `JVal` (deriving does not handle the nesting). -/
def JVal.beq : JVal → JVal → Bool
  | .jstr a, .jstr b => a == b
  | .jnum a, .jnum b => a == b
  | .jbool a, .jbool b => a == b
  | .jnull, .jnull => true
  | .jarr a, .jarr b => beqList a b
  | .jobj a, .jobj b => beqFields a b
  | _, _ => false
where
  beqList : List JVal → List JVal → Bool
    | [], [] => true
    | x :: xs, y :: ys => JVal.beq x y && beqList xs ys
    | _, _ => false
  beqFields : List (String × JVal) → List (String × JVal) → Bool
    | [], [] => true
    | (k, x) :: xs, (l, y) :: ys => k == l && JVal.beq x y && beqFields xs ys
    | _, _ => false

instance : BEq JVal := ⟨JVal.beq⟩

/-- Externally visible events: a subprocess dispatch with its full argument
vector (`SubprocessCommander.exe_wait_sbp_command`), or one round of
`perform_sync_notify` (each registered observer's `sync()` is called). -/
inductive Event where
  | dispatch (argv : List String)
  | notify
deriving Repr, DecidableEq

/-- Python exceptions raised by the embedded code. -/
inductive BwError where
  | fileNotFound
  | invalidMasterPassword
  | itemNotFound
  | indexError
  | typeError
  | keyError
  | jsonError
  | notImplemented
deriving Repr, DecidableEq

/-- The mutable state of a `BitwardenCommander`, together with the
constructor arguments (paths) and whether the password file exists
(`os.path.isfile`). -/
structure CmdrState where
  exePath : String
  pwPath : String
  pw_file_exists : Bool
  session_key : Option String
deriving Repr, DecidableEq

/-- The deterministic external world: output lines of each spawned command,
and the result of `json.loads` on a string (`none` models a parse error). -/
structure Env where
  run : List String → List String
  parse : String → Option JVal

/-- Result of a commander-level operation: value or exception, the state
after the call, and the trace of events that occurred. -/
structure Outcome (α : Type) where
  result : Except BwError α
  state : CmdrState
  trace : List Event
deriving Repr

/-- The argument vector built by `unlock` (bypasses `exe_bw_command`). -/
def unlockArgv (st : CmdrState) : List String :=
  [st.exePath, "unlock", "--passwordfile", st.pwPath, "--raw"]

/-- Whether `pat` occurs as a contiguous run inside `l`. -/
def containsSub (pat : List Char) : List Char → Bool
  | [] => List.isPrefixOf pat []
  | c :: cs => List.isPrefixOf pat (c :: cs) || containsSub pat cs

/-- Python `re.match(r".*Invalid.*password.*", line)` succeeds iff some occurrence
of `"Invalid"` is followed (at or after its end) by `"password"`.  The
match is case sensitive: the source passes no `re.IGNORECASE` flag. -/
def invalidPwAux : List Char → Bool
  | [] => false
  | c :: cs =>
    (List.isPrefixOf ("Invalid".toList) (c :: cs)
      && containsSub ("password".toList) ((c :: cs).drop ("Invalid".toList).length))
    || invalidPwAux cs

def invalidPwMatch (line : String) : Bool := invalidPwAux line.toList

/-- Python `re.match(r"\s*sync\s*", bw_args[0])`: `re.match` anchors only at the
start, so this succeeds iff the first argument starts with optional
whitespace followed by the letters `sync`. -/
def isSyncArg (s : String) : Bool :=
  List.isPrefixOf ("sync".toList) (s.toList.dropWhile fun c => c.isWhitespace)

/-- The tail of `exe_bw_command` once a session key is in hand: the
sync-notify check on `bw_args[0]`, then the dispatch of
`[exe] + bw_args + ["--session", key]`.  Returns the command output and
the events in order (notification, when it happens, precedes dispatch,
exactly as in the source). -/
def notifyAndDispatch (env : Env) (st : CmdrState) (key : String)
    (arg0 : String) (argRest : List String) : List String × List Event :=
  let pre : List Event := if isSyncArg arg0 then [Event.notify] else []
  let argv := st.exePath :: (arg0 :: argRest) ++ ["--session", key]
  (env.run argv, pre ++ [Event.dispatch argv])

/-- Model of `BitwardenCommander.unlock`.  The trailing `self.sync()` is the
`exe_bw_command ['sync']` call made with the freshly set session key, so it
takes the with-key path (`notifyAndDispatch`); this inlining is what makes
the source's `unlock → sync → exe_bw_command` recursion terminate. -/
def unlock (env : Env) (st : CmdrState) : Outcome Unit :=
  match st.session_key with
  | some _ => ⟨.ok (), st, []⟩
  | none =>
    if st.pw_file_exists = false then ⟨.error .fileNotFound, st, []⟩
    else
      let argv := unlockArgv st
      match env.run argv with
      | [] => ⟨.error .indexError, st, [.dispatch argv]⟩
      | line :: _ =>
        if invalidPwMatch line then
          ⟨.error .invalidMasterPassword, st, [.dispatch argv]⟩
        else
          let st1 := { st with session_key := some line }
          let (_, tr) := notifyAndDispatch env st1 line "sync" []
          ⟨.ok (), st1, .dispatch argv :: tr⟩

/-- Model of `BitwardenCommander.exe_bw_command`. -/
def exe_bw_command (env : Env) (st : CmdrState) (bw_args : List String) :
    Outcome (List String) :=
  match st.session_key with
  | some key =>
    match bw_args with
    | [] => ⟨.error .indexError, st, []⟩
    | a :: rest =>
      let (out, tr) := notifyAndDispatch env st key a rest
      ⟨.ok out, st, tr⟩
  | none =>
    match unlock env st with
    | ⟨.error e, st1, tr⟩ => ⟨.error e, st1, tr⟩
    | ⟨.ok _, st1, tr⟩ =>
      match st1.session_key with
      | some key =>
        match bw_args with
        | [] => ⟨.error .indexError, st1, tr⟩
        | a :: rest =>
          let (out, tr2) := notifyAndDispatch env st1 key a rest
          ⟨.ok out, st1, tr ++ tr2⟩
      | none => ⟨.error .typeError, st1, tr⟩

/-- Model of `BitwardenCommander.sync`. -/
def sync (env : Env) (st : CmdrState) : Outcome (List String) :=
  exe_bw_command env st ["sync"]

/-- Model of `BitwardenCommander.lock`: run the lock command, then drop the key. -/
def lock (env : Env) (st : CmdrState) : Outcome Unit :=
  match exe_bw_command env st ["lock"] with
  | ⟨.ok _, st1, tr⟩ => ⟨.ok (), { st1 with session_key := none }, tr⟩
  | ⟨.error e, st1, tr⟩ => ⟨.error e, st1, tr⟩

/-- Python `re.match(r"^[\[{].*", res)`: the first character is `[` or `{`
(the `.*` may match the empty string, so nothing more is required). -/
def startsBracket (s : String) : Bool :=
  match s.toList with
  | [] => false
  | c :: _ => c == '[' || c == '{'

/-- Python `item[key]` on a JSON value: `KeyError` when a mapping lacks the
key, `TypeError` when the value does not support string indexing. -/
def lookupField (item : JVal) (key : String) : Except BwError JVal :=
  match item with
  | .jobj fields =>
    match fields.lookup key with
    | some v => .ok v
    | none => .error .keyError
  | _ => .error .typeError

/-- Python `v == s` for a JSON value against a string: true only when the
value is that exact string (mixed-type comparison is `False`, no error). -/
def jvalEqStr (v : JVal) (s : String) : Bool :=
  match v with
  | .jstr t => t == s
  | _ => false

/-- The selection loop of `find_object_info`: `res` starts as the first
element and is overwritten by every element whose `name` equals the search
text.  Evaluating `res_item['name']` can raise on any element. -/
def selectExact (search : String) (acc : JVal) : List JVal → Except BwError JVal
  | [] => .ok acc
  | item :: rest =>
    match lookupField item "name" with
    | .error e => .error e
    | .ok nm => selectExact search (if jvalEqStr nm search then item else acc) rest

/-- Python `len` on a JSON value (`TypeError` on numbers and the like). -/
def pyLen : JVal → Option Nat
  | .jarr xs => some xs.length
  | .jobj fs => some fs.length
  | .jstr s => some s.length
  | _ => none

/-- Model of `BitwardenCommander.find_object_info`.  Appends `--search <text>` to
the query command, dispatches it, and interprets the first output line:
no leading `[`/`{` or an empty parse result raise
`BitwardenItemNotFoundError` (`.itemNotFound`); otherwise the first array
element is the default and the loop prefers elements whose `name` equals
the search text.  `raw_res[0]` on a non-empty mapping is a `KeyError`
(JSON object keys are strings, not `0`), and `dict(...)` of a non-mapping
element is a `TypeError`. -/
def find_object_info (env : Env) (st : CmdrState) (get_qry_command : List String)
    (search_text : String) : Outcome JVal :=
  let command := get_qry_command ++ ["--search", search_text]
  match exe_bw_command env st command with
  | ⟨.error e, st1, tr⟩ => ⟨.error e, st1, tr⟩
  | ⟨.ok out, st1, tr⟩ =>
    match out with
    | [] => ⟨.error .indexError, st1, tr⟩
    | res :: _ =>
      if startsBracket res = false then ⟨.error .itemNotFound, st1, tr⟩
      else
        match env.parse res with
        | none => ⟨.error .jsonError, st1, tr⟩
        | some raw_res =>
          match pyLen raw_res with
          | none => ⟨.error .typeError, st1, tr⟩
          | some 0 => ⟨.error .itemNotFound, st1, tr⟩
          | some (_ + 1) =>
            match raw_res with
            | .jarr (e0 :: es) =>
              match e0 with
              | .jobj _ =>
                match selectExact search_text e0 (e0 :: es) with
                | .ok r => ⟨.ok r, st1, tr⟩
                | .error e => ⟨.error e, st1, tr⟩
              | _ => ⟨.error .typeError, st1, tr⟩
            | .jobj _ => ⟨.error .keyError, st1, tr⟩
            | _ => ⟨.error .typeError, st1, tr⟩

/-! ## Remote object proxies -/

/-- The identifier carried into an argument vector.  `Popen` requires every
argument to be a string, so a non-string `bw_id` raises `TypeError` when a
command is built from it. -/
def idArg : JVal → Except BwError String
  | .jstr s => .ok s
  | _ => .error .typeError

/-- Outcome of `BitwardenObject.get_info` over an arbitrary overriding of
`get_info_from_bw` (the virtual call): the returned value or exception,
the cache afterward, the commander state, and the event trace. -/
structure InfoOutcome where
  result : Except BwError JVal
  cache : Option JVal
  state : CmdrState
  trace : List Event
deriving Repr

/-- Model of `BitwardenObject.get_info`, parameterized by the subclass's
`get_info_from_bw` (`fetch`).  A cached snapshot is returned as is; on a
miss the fetch result is cached; a fetch exception leaves the cache
absent. -/
def get_info_generic (fetch : CmdrState → Outcome JVal) (cache : Option JVal)
    (st : CmdrState) : InfoOutcome :=
  match cache with
  | some v => ⟨.ok v, some v, st, []⟩
  | none =>
    match fetch st with
    | ⟨.ok v, st1, tr⟩ => ⟨.ok v, some v, st1, tr⟩
    | ⟨.error e, st1, tr⟩ => ⟨.error e, none, st1, tr⟩

/-- State of a `BitwardenItemAttachment`.  The back-reference
`item_attached_to` is used only through its `bw_id`, so only that
identifier is kept (`item_id`). -/
structure AttachmentObj where
  bw_id : JVal
  name : JVal
  item_id : JVal
  info_cache : Option JVal
  input_path : Option String
  output_path : Option String
deriving Repr

/-- Model of `BitwardenObject.sync` as inherited by attachments. -/
def AttachmentObj.sync (a : AttachmentObj) : AttachmentObj :=
  { a with info_cache := none }

/-- The override `BitwardenItemAttachment.get_info_from_bw` unconditionally raises
`NotImplementedError`: attachment info exists only pre-seeded. -/
def AttachmentObj.get_info_from_bw : Except BwError JVal :=
  .error .notImplemented

/-- Model of `BitwardenObject.get_info` specialized to an attachment: the overridden
fetch touches no commander state and dispatches nothing. -/
def AttachmentObj.get_info (a : AttachmentObj) :
    Except BwError JVal × AttachmentObj :=
  match a.info_cache with
  | some v => (.ok v, a)
  | none =>
    match AttachmentObj.get_info_from_bw with
    | .ok v => (.ok v, { a with info_cache := some v })
    | .error e => (.error e, a)

/-- State of a `BitwardenItem`. -/
structure ItemObj where
  bw_id : JVal
  info_cache : Option JVal
  attachments_have_been_downloaded : Bool
  attachments_cache : Option (List AttachmentObj)
deriving Repr

/-- Outcome of an item operation. -/
structure ItemOutcome (α : Type) where
  result : Except BwError α
  item : ItemObj
  state : CmdrState
  trace : List Event
deriving Repr

/-- Model of `BitwardenItem.get_info_from_bw`:
`dict(json.loads(self.bw_commander.exe_bw_command(['get','item',id])[0]))`. -/
def ItemObj.get_info_from_bw (env : Env) (it : ItemObj) (st : CmdrState) :
    Outcome JVal :=
  match idArg it.bw_id with
  | .error e => ⟨.error e, st, []⟩
  | .ok idStr =>
    match exe_bw_command env st ["get", "item", idStr] with
    | ⟨.error e, st1, tr⟩ => ⟨.error e, st1, tr⟩
    | ⟨.ok out, st1, tr⟩ =>
      match out with
      | [] => ⟨.error .indexError, st1, tr⟩
      | line :: _ =>
        match env.parse line with
        | none => ⟨.error .jsonError, st1, tr⟩
        | some (.jobj f) => ⟨.ok (.jobj f), st1, tr⟩
        | some _ => ⟨.error .typeError, st1, tr⟩

/-- Model of `BitwardenObject.get_info` on an item (virtual call resolved to
`ItemObj.get_info_from_bw`). -/
def ItemObj.get_info (env : Env) (st : CmdrState) (it : ItemObj) :
    ItemOutcome JVal :=
  match get_info_generic (ItemObj.get_info_from_bw env it) it.info_cache st with
  | ⟨r, c, st1, tr⟩ => ⟨r, { it with info_cache := c }, st1, tr⟩

/-- The loop body of `get_attachments`: one attachment proxy per entry,
pre-seeded with its sub-snapshot; `attachment['id']` / `['fileName']` can
raise partway, leaving the objects built so far in the cache. -/
def buildAttachObjs (itemId : JVal) (acc : List AttachmentObj) :
    List JVal → List AttachmentObj × Option BwError
  | [] => (acc, none)
  | attachment :: rest =>
    match lookupField attachment "id" with
    | .error e => (acc, some e)
    | .ok attach_id =>
      match lookupField attachment "fileName" with
      | .error e => (acc, some e)
      | .ok attach_name =>
        buildAttachObjs itemId
          (acc ++ [{ bw_id := attach_id, name := attach_name, item_id := itemId,
                     info_cache := some attachment, input_path := none,
                     output_path := none }])
          rest

/-- The innermost step of `get_attachments`: how the loop result (built
objects plus the error that interrupted it, if any) is folded back into
`self`.  A completed loop sets the fetched flag; an interrupted one leaves
it as it was. -/
def get_attachments_build (it1 : ItemObj) (st1 : CmdrState) (tr : List Event) :
    List AttachmentObj × Option BwError → ItemOutcome (List AttachmentObj)
  | (objs, some e) =>
    ⟨.error e, { it1 with attachments_cache := some objs }, st1, tr⟩
  | (objs, none) =>
    ⟨.ok objs,
     { it1 with attachments_cache := some objs,
                attachments_have_been_downloaded := true }, st1, tr⟩

/-- The `attachments` field handling of `get_attachments`: absent field
means no attachments (flag up, empty cache returned); a JSON array is
iterated by the loop; anything else fails when the loop indexes its first
element. -/
def get_attachments_field (itOrig it1 : ItemObj) (st1 : CmdrState)
    (tr : List Event) : Option JVal → ItemOutcome (List AttachmentObj)
  | none =>
    let it2 := { it1 with attachments_have_been_downloaded := true }
    ⟨.ok (it2.attachments_cache.getD []), it2, st1, tr⟩
  | some (.jarr attachments) =>
    get_attachments_build it1 st1 tr
      (buildAttachObjs itOrig.bw_id (it1.attachments_cache.getD []) attachments)
  | some _ =>
    ⟨.error .typeError, it1, st1, tr⟩

/-- The tail of `get_attachments` once the item snapshot (`item_details`)
is in hand.  `itOrig` supplies `self.bw_id` for the back-references; `it1`
is `self` after the `get_info` call.  A non-mapping snapshot fails the
`'attachments' in item_details` test, which counts as "no attachments". -/
def get_attachments_post (itOrig it1 : ItemObj) (st1 : CmdrState)
    (tr : List Event) : JVal → ItemOutcome (List AttachmentObj)
  | .jobj fields =>
    get_attachments_field itOrig it1 st1 tr (fields.lookup "attachments")
  | _ =>
    let it2 := { it1 with attachments_have_been_downloaded := true }
    ⟨.ok (it2.attachments_cache.getD []), it2, st1, tr⟩

/-- Model of `BitwardenItem.get_attachments`. -/
def ItemObj.get_attachments (env : Env) (st : CmdrState) (it : ItemObj) :
    ItemOutcome (List AttachmentObj) :=
  if it.attachments_cache.isSome && it.attachments_have_been_downloaded then
    ⟨.ok (it.attachments_cache.getD []), it, st, []⟩
  else
    let it0 : ItemObj := { it with attachments_cache := some [] }
    match ItemObj.get_info env st it0 with
    | ⟨.error e, it1, st1, tr⟩ => ⟨.error e, it1, st1, tr⟩
    | ⟨.ok item_details, it1, st1, tr⟩ =>
      get_attachments_post it it1 st1 tr item_details

/-- Model of `BitwardenItem.create_upload_attachment`: build the placeholder
attachment, append it to the (possibly just-created) cache without touching
the fetched flag, then upload it. -/
def ItemObj.create_upload_attachment (env : Env) (st : CmdrState) (it : ItemObj)
    (attach_file_input : String) : ItemOutcome AttachmentObj :=
  let new_obj : AttachmentObj :=
    { bw_id := .jstr "NO_ID", name := .jstr attach_file_input, item_id := it.bw_id,
      info_cache := none, input_path := some attach_file_input, output_path := none }
  let it1 : ItemObj :=
    { it with attachments_cache := some ((it.attachments_cache.getD []) ++ [new_obj]) }
  match idArg it.bw_id with
  | .error e => ⟨.error e, it1, st, []⟩
  | .ok item_id_str =>
    match exe_bw_command env st
        ["create", "attachment", "--file", attach_file_input, "--itemid", item_id_str] with
    | ⟨.ok _, st1, tr⟩ => ⟨.ok new_obj, it1, st1, tr⟩
    | ⟨.error e, st1, tr⟩ => ⟨.error e, it1, st1, tr⟩

/-- Model of `BitwardenItem.sync`: clears the snapshot and both attachment fields. -/
def ItemObj.sync (it : ItemObj) : ItemObj :=
  { it with info_cache := none, attachments_cache := none,
            attachments_have_been_downloaded := false }

/-- State of a `BitwardenCollection` (`items_cache` keyed by search string). -/
structure CollectionObj where
  bw_id : JVal
  info_cache : Option JVal
  items_cache : List (String × ItemObj)
deriving Repr

/-- State of a `BitwardenOrganization`. -/
structure OrgObj where
  bw_id : JVal
  info_cache : Option JVal
  collections_cache : List (String × CollectionObj)
deriving Repr

/-- Model of `BitwardenOrganization.find_organization` (static): resolve, then wrap
`find_info_res['id']` in a new organization proxy pre-seeded with the
returned mapping. -/
def find_organization (env : Env) (st : CmdrState) (search_text : String) :
    Except BwError OrgObj × CmdrState × List Event :=
  match find_object_info env st ["list", "organizations"] search_text with
  | ⟨.error e, st1, tr⟩ => (.error e, st1, tr)
  | ⟨.ok find_info_res, st1, tr⟩ =>
    match lookupField find_info_res "id" with
    | .error e => (.error e, st1, tr)
    | .ok idv =>
      (.ok { bw_id := idv, info_cache := some find_info_res,
             collections_cache := [] }, st1, tr)

/-- Model of `BitwardenCollection.find_collection` (static).  The source constructs
the proxy as `BitwardenCollection(find_info_res['id'])`, but the
constructor signature is `(self, bw_commander, bw_id)`: the call is
missing its second required positional argument, so after the resolution
and the `['id']` lookup succeed Python raises
`TypeError: __init__() missing 1 required positional argument`. -/
def find_collection_static (env : Env) (st : CmdrState) (search_text : String) :
    Except BwError CollectionObj × CmdrState × List Event :=
  match find_object_info env st ["list", "collections"] search_text with
  | ⟨.error e, st1, tr⟩ => (.error e, st1, tr)
  | ⟨.ok find_info_res, st1, tr⟩ =>
    match lookupField find_info_res "id" with
    | .error e => (.error e, st1, tr)
    | .ok _ => (.error .typeError, st1, tr)

/-! ## Concrete fixtures used by counterexamples and witnesses -/

/-- An environment whose every command prints `ok`. -/
def env0 : Env := { run := fun _ => ["ok"], parse := fun _ => none }

/-- An environment whose every command prints a session-key-looking line. -/
def envGood : Env := { run := fun _ => ["THE-KEY"], parse := fun _ => none }

/-- An unlocked commander (session key `"k"`). -/
def stU : CmdrState := ⟨"bw", "pwfile", true, some "k"⟩

/-- A locked commander with an existing password file. -/
def stL : CmdrState := ⟨"bw", "pwfile", true, none⟩

theorem isSyncArg_sync : isSyncArg "sync" = true := by decide

theorem isSyncArg_lock : isSyncArg "lock" = false := by decide

/-! ## C2 — invalid-password detection in `unlock` -/

/-- An environment whose unlock command reports a lowercase invalid-password
error line. -/
def c2Env : Env :=
  { run := fun _ => ["invalid master password."], parse := fun _ => none }

/-- C2 (counterexample): with no token, an existing password file and an
unlock output line of `"invalid master password."` (lowercase), `unlock`
does NOT raise: the regex `.*Invalid.*password.*` is case sensitive, so the
error line is mistaken for a session key and stored, and the follow-up sync
is dispatched. -/
theorem c2_counterexample :
    (unlock c2Env stL).result = .ok () ∧
    (unlock c2Env stL).state.session_key = some "invalid master password." ∧
    (unlock c2Env stL).trace =
      [.dispatch (unlockArgv stL), .notify,
       .dispatch ["bw", "sync", "--session", "invalid master password."]] :=
  ⟨rfl, rfl, rfl⟩

/-- C2 (amended): the detection is case sensitive.  Whenever the first
unlock output line contains `"Invalid"` followed by `"password"` exactly in
those letter cases, `unlock` raises `InvalidMasterPasswordError`, the state
is unchanged (token still absent), and the only command issued is the
unlock command itself. -/
theorem c2_unlock_invalid_password_case_sensitive
    (env : Env) (st : CmdrState) (line : String) (rest : List String)
    (hkey : st.session_key = none) (hpw : st.pw_file_exists = true)
    (hout : env.run (unlockArgv st) = line :: rest)
    (hmatch : invalidPwMatch line = true) :
    unlock env st = ⟨.error .invalidMasterPassword, st, [.dispatch (unlockArgv st)]⟩ := by
  simp [unlock, hkey, hpw, hout, hmatch]

/-- C2 witness: the capital-I line of the repository's own unit test. -/
def c2EnvCap : Env :=
  { run := fun _ => ["Invalid master password."], parse := fun _ => none }

theorem c2_unlock_invalid_password_case_sensitive_witness :
    unlock c2EnvCap stL =
      ⟨.error .invalidMasterPassword, stL, [.dispatch (unlockArgv stL)]⟩ :=
  c2_unlock_invalid_password_case_sensitive c2EnvCap stL
    "Invalid master password." [] rfl rfl rfl (by decide)

/-! ## C3 — ordering of observer notification and the remote sync call -/

/-- C3 (counterexample): with a token present, `sync()` notifies the
observers first and only then dispatches the remote `sync` command — the
trace places the notification strictly before the dispatch, contradicting
the claimed dispatch-before-notification order. -/
theorem c3_counterexample :
    (sync env0 stU).trace =
      [Event.notify, Event.dispatch ["bw", "sync", "--session", "k"]] := rfl

/-- C3 (amended): for every call to `sync()` with a token present, the
registered observers are notified immediately BEFORE the remote
synchronization command is dispatched, never after. -/
theorem c3_notify_precedes_dispatch (env : Env) (st : CmdrState) (key : String)
    (hkey : st.session_key = some key) :
    sync env st =
      ⟨.ok (env.run (st.exePath :: "sync" :: ["--session", key])), st,
       [Event.notify, Event.dispatch (st.exePath :: "sync" :: ["--session", key])]⟩ := by
  unfold sync exe_bw_command
  rw [hkey]
  simp [notifyAndDispatch, isSyncArg_sync]

theorem c3_notify_precedes_dispatch_witness :
    sync env0 stU =
      ⟨.ok ["ok"], stU, [Event.notify, Event.dispatch ["bw", "sync", "--session", "k"]]⟩ :=
  c3_notify_precedes_dispatch env0 stU "k" rfl

/-! ## C6 — when `lock()` issues the command and drops the token -/

/-- A locked commander whose password file does not exist. -/
def stNoPw : CmdrState := ⟨"bw", "pwfile", false, none⟩

/-- C6 (counterexample): `lock()` does NOT unconditionally issue the lock
command in every session state.  With no token and a missing password
file, the implicit `unlock` raises `FileNotFoundError` before anything is
dispatched: the trace is empty, so no lock command was issued.  With no
token, an existing password file and an invalid-password unlock output,
`unlock` raises after dispatching only the unlock command — again no lock
command is issued. -/
theorem c6_counterexample :
    lock env0 stNoPw = ⟨.error .fileNotFound, stNoPw, []⟩ ∧
    lock c2EnvCap stL =
      ⟨.error .invalidMasterPassword, stL, [.dispatch (unlockArgv stL)]⟩ :=
  ⟨rfl, rfl⟩

/-- C6 (amended): with a token present, `lock()` unconditionally issues
the lock command under that token and ends with the token discarded,
whatever the lock command's output.  With no token, the implicit `unlock`
must succeed first: when it does (password file present, non-empty
non-error unlock output), its command and sync precede the lock dispatch,
the freshly obtained token is used for it and then discarded; when the
unlock fails, its exception propagates before any lock command is
dispatched and the token remains absent. -/
theorem c6_lock_unconditional (env : Env) (st : CmdrState) :
    (∀ k, st.session_key = some k →
      lock env st = ⟨.ok (), { st with session_key := none },
        [.dispatch [st.exePath, "lock", "--session", k]]⟩) ∧
    (st.session_key = none → st.pw_file_exists = true →
      ∀ line rest, env.run (unlockArgv st) = line :: rest →
        invalidPwMatch line = false →
        lock env st = ⟨.ok (), { st with session_key := none },
          [.dispatch (unlockArgv st), .notify,
           .dispatch [st.exePath, "sync", "--session", line],
           .dispatch [st.exePath, "lock", "--session", line]]⟩) := by
  constructor
  · intro k hk
    unfold lock exe_bw_command
    rw [hk]
    simp [notifyAndDispatch, isSyncArg_lock]
  · intro hk hpw line rest hout hline
    simp [lock, exe_bw_command, unlock, hk, hpw, hout, hline,
      notifyAndDispatch, isSyncArg_sync, isSyncArg_lock]

theorem c6_lock_unconditional_witness :
    lock env0 stU = ⟨.ok (), { stU with session_key := none },
      [.dispatch ["bw", "lock", "--session", "k"]]⟩ ∧
    lock envGood stL = ⟨.ok (), { stL with session_key := none },
      [.dispatch (unlockArgv stL), .notify,
       .dispatch ["bw", "sync", "--session", "THE-KEY"],
       .dispatch ["bw", "lock", "--session", "THE-KEY"]]⟩ :=
  ⟨(c6_lock_unconditional env0 stU).1 "k" rfl,
   (c6_lock_unconditional envGood stL).2 rfl rfl "THE-KEY" [] rfl (by decide)⟩

/-! ## C5 — `exe_bw_command` with no token -/

/-- C5 (counterexample): dispatching `['sync']` with no token notifies the
observers twice — once inside `unlock`'s internal `sync()` and once more
DIRECTLY by `exe_bw_command`'s own sync-detection, which fires regardless
of how the session key was obtained.  `unlock` alone accounts for only one
of the two notifications. -/
theorem c5_counterexample :
    ((exe_bw_command envGood stL ["sync"]).trace.count Event.notify) = 2 ∧
    ((unlock envGood stL).trace.count Event.notify) = 1 := ⟨rfl, rfl⟩

/-- C5 (amended): with no token present, `exe_bw_command` calls `unlock()`
exactly once before dispatching (the unlock command is the first dispatch
in the trace and occurs exactly once), and `perform_sync_notify()` is
called directly in that path precisely when the dispatched command is
itself a sync command — for any other command the only notification is the
one already performed by `unlock`'s internal `sync()`. -/
theorem c5_exe_no_token (env : Env) (st : CmdrState) (a : String)
    (rest : List String) (line : String) (outRest : List String)
    (hkey : st.session_key = none) (hpw : st.pw_file_exists = true)
    (hout : env.run (unlockArgv st) = line :: outRest)
    (hline : invalidPwMatch line = false) :
    exe_bw_command env st (a :: rest) =
      ⟨.ok (env.run (st.exePath :: (a :: rest) ++ ["--session", line])),
       { st with session_key := some line },
       [.dispatch (unlockArgv st), .notify,
        .dispatch [st.exePath, "sync", "--session", line]]
       ++ (if isSyncArg a then [Event.notify] else [])
       ++ [.dispatch (st.exePath :: (a :: rest) ++ ["--session", line])]⟩ := by
  simp only [exe_bw_command, unlock, hkey, hpw, hout, hline, notifyAndDispatch,
    isSyncArg_sync, Bool.true_eq_false, if_false, Bool.false_eq_true, ite_false]
  by_cases h : isSyncArg a = true
  · simp [h]
  · simp [Bool.not_eq_true] at h
    simp [h]

theorem c5_exe_no_token_witness :
    exe_bw_command envGood stL ["list", "items"] =
      ⟨.ok ["THE-KEY"], { stL with session_key := some "THE-KEY" },
       [.dispatch (unlockArgv stL), .notify,
        .dispatch ["bw", "sync", "--session", "THE-KEY"],
        .dispatch ["bw", "list", "items", "--session", "THE-KEY"]]⟩ := by
  have h := c5_exe_no_token envGood stL "list" ["items"] "THE-KEY" []
    rfl rfl rfl (by decide)
  simpa using h

/-! ## C9 — not-found handling in `find_object_info` -/

/-- C9: if the first output line of the dispatched search command does not
begin with `[` or `{`, or parses as an empty JSON array, `find_object_info`
raises `BitwardenItemNotFoundError`. -/
theorem c9_not_found (env : Env) (st : CmdrState) (qry : List String)
    (s : String) (line : String) (outRest : List String) (st1 : CmdrState)
    (tr : List Event)
    (hexe : exe_bw_command env st (qry ++ ["--search", s]) =
      ⟨.ok (line :: outRest), st1, tr⟩)
    (hbad : startsBracket line = false ∨ env.parse line = some (.jarr [])) :
    (find_object_info env st qry s).result = .error .itemNotFound := by
  rcases hbad with hb | hb
  · simp [find_object_info, hexe, hb]
  · by_cases hs : startsBracket line = false
    · simp [find_object_info, hexe, hs]
    · simp only [Bool.not_eq_false] at hs
      simp [find_object_info, hexe, hs, hb, pyLen]

/-- An environment producing a plain-text not-found line. -/
def c9Env : Env := { run := fun _ => ["Not found."], parse := fun _ => none }

theorem c9_not_found_witness :
    (find_object_info c9Env stU ["list", "items"] "a_search_term").result =
      .error .itemNotFound :=
  c9_not_found c9Env stU ["list", "items"] "a_search_term" "Not found." []
    stU [.dispatch ["bw", "list", "items", "--search", "a_search_term", "--session", "k"]]
    rfl (Or.inl rfl)

/-! ## C1 — which exact match the selection loop keeps -/

/-- The element's `name` field is exactly the search text (and indexing it
would not raise). -/
def hasExactName (s : String) (e : JVal) : Bool :=
  match lookupField e "name" with
  | .ok nm => jvalEqStr nm s
  | .error _ => false

/-- Indexing the element with `'name'` does not raise. -/
def nameOk (e : JVal) : Bool :=
  match lookupField e "name" with
  | .ok _ => true
  | .error _ => false

/-- The selection loop keeps the LAST element whose `name` equals the
search text (every later exact match overwrites the earlier one), and the
starting accumulator when there is none. -/
theorem selectExact_eq_lastMatch (s : String) :
    ∀ (l : List JVal) (acc : JVal), l.all nameOk = true →
      selectExact s acc l = .ok ((l.reverse.find? (hasExactName s)).getD acc)
  | [], _, _ => rfl
  | item :: rest, acc, h => by
    simp only [List.all_cons, Bool.and_eq_true] at h
    obtain ⟨h1, h2⟩ := h
    match hnm : lookupField item "name" with
    | .error e => simp [nameOk, hnm] at h1
    | .ok nm =>
      have hstep : selectExact s acc (item :: rest)
          = selectExact s (if jvalEqStr nm s = true then item else acc) rest := by
        rw [selectExact, hnm]
      rw [hstep, selectExact_eq_lastMatch s rest _ h2]
      congr 1
      rw [List.reverse_cons, List.find?_append]
      cases hf : rest.reverse.find? (hasExactName s) with
      | some x => simp [hf, Option.or]
      | none =>
        by_cases hm : jvalEqStr nm s = true
        · simp [hf, Option.or, List.find?_cons, hasExactName, hnm, hm]
        · simp only [Bool.not_eq_true] at hm
          simp [hf, Option.or, List.find?_cons, hasExactName, hnm, hm]

/-- C1 (amended): when the dispatched command yields a JSON array whose
first element is a mapping and every element supports the `name` lookup,
`find_object_info` returns the LAST element whose `name` equals the search
text exactly (later exact matches overwrite earlier ones); with no exact
match it returns the array's first element. -/
theorem c1_last_exact_match (env : Env) (st : CmdrState) (qry : List String)
    (s : String) (line : String) (outRest : List String) (st1 : CmdrState)
    (tr : List Event) (f0 : List (String × JVal)) (es : List JVal)
    (hexe : exe_bw_command env st (qry ++ ["--search", s]) =
      ⟨.ok (line :: outRest), st1, tr⟩)
    (hbr : startsBracket line = true)
    (hparse : env.parse line = some (.jarr (.jobj f0 :: es)))
    (hnames : (JVal.jobj f0 :: es).all nameOk = true) :
    (find_object_info env st qry s).result =
      .ok (((JVal.jobj f0 :: es).reverse.find? (hasExactName s)).getD (.jobj f0)) := by
  simp only [find_object_info, hexe, hbr, hparse, pyLen,
    selectExact_eq_lastMatch s _ _ hnames]
  simp

/-- First element of the tied pair: `name` is `a`, `id` is `1`. -/
def c1Obj1 : JVal := .jobj [("name", .jstr "a"), ("id", .jstr "1")]

/-- Second element of the tied pair: `name` is `a`, `id` is `2`. -/
def c1Obj2 : JVal := .jobj [("name", .jstr "a"), ("id", .jstr "2")]

def c1Line : String := "[two results]"

/-- Search environment returning two elements both named exactly `a`. -/
def c1Env : Env :=
  { run := fun _ => [c1Line],
    parse := fun x => if x = c1Line then some (.jarr [c1Obj1, c1Obj2]) else none }

/-- C1 (counterexample): with two elements whose `name` both equal the
search text `a`, the element returned is the SECOND one (id `2`), not the
first exact match (id `1`): the loop overwrites the result on every exact
match, so the last one wins. -/
theorem c1_counterexample :
    (find_object_info c1Env stU ["list", "items"] "a").result = .ok c1Obj2 ∧
    (find_object_info c1Env stU ["list", "items"] "a").result ≠ .ok c1Obj1 := by
  refine ⟨rfl, fun h => ?_⟩
  have hres : (find_object_info c1Env stU ["list", "items"] "a").result = .ok c1Obj2 := rfl
  rw [hres] at h
  have h2 : c1Obj2 = c1Obj1 := Except.ok.inj h
  have h3 := congrArg (fun v => lookupField v "id") h2
  simp only [c1Obj1, c1Obj2, lookupField, List.lookup] at h3
  have h4 := Except.ok.inj h3
  have h5 := JVal.jstr.inj h4
  exact absurd h5 (by decide)

/-- C1 witness: the amended theorem at the tied pair returns the second
element, and with search text `b` (no exact match) the first element. -/
theorem c1_last_exact_match_witness :
    (find_object_info c1Env stU ["list", "items"] "a").result = .ok c1Obj2 ∧
    (find_object_info c1Env stU ["list", "items"] "b").result = .ok c1Obj1 := by
  constructor
  · have h := c1_last_exact_match c1Env stU ["list", "items"] "a" c1Line []
      stU [.dispatch ["bw", "list", "items", "--search", "a", "--session", "k"]]
      [("name", .jstr "a"), ("id", .jstr "1")] [c1Obj2] rfl rfl rfl rfl
    simpa using h
  · have h := c1_last_exact_match c1Env stU ["list", "items"] "b" c1Line []
      stU [.dispatch ["bw", "list", "items", "--search", "b", "--session", "k"]]
      [("name", .jstr "a"), ("id", .jstr "1")] [c1Obj2] rfl rfl rfl rfl
    simpa using h

/-! ## C8 — `get_info` caches and never refetches -/

/-- C8: if a `get_info` call returns a mapping, an immediately following
`get_info` (no intervening `sync`) returns the identical mapping with an
empty event trace (no fetch command at all) and leaves everything
unchanged; moreover the first call ran the underlying fetch exactly on a
cache miss (its whole trace is the single fetch's) and did nothing on a
hit. -/
theorem c8_get_info_cached_once (fetch : CmdrState → Outcome JVal)
    (cache : Option JVal) (st : CmdrState) (v : JVal) (c1 : Option JVal)
    (st1 : CmdrState) (tr : List Event)
    (h : get_info_generic fetch cache st = ⟨.ok v, c1, st1, tr⟩) :
    get_info_generic fetch c1 st1 = ⟨.ok v, c1, st1, []⟩ ∧
    c1 = some v ∧
    (cache = none → fetch st = ⟨.ok v, st1, tr⟩) ∧
    (∀ w, cache = some w → tr = [] ∧ st1 = st) := by
  cases cache with
  | some w =>
    simp only [get_info_generic, InfoOutcome.mk.injEq] at h
    obtain ⟨hv, hc, hst, htr⟩ := h
    have hwv : w = v := Except.ok.inj hv
    subst hwv
    subst hc
    subst hst
    subst htr
    exact ⟨rfl, rfl, fun hno => absurd hno (Option.some_ne_none _),
      fun w2 _ => ⟨rfl, rfl⟩⟩
  | none =>
    simp only [get_info_generic] at h
    cases hf : fetch st with
    | mk r s2 t2 =>
      rw [hf] at h
      cases r with
      | ok w =>
        simp only [InfoOutcome.mk.injEq] at h
        obtain ⟨hv, hc, hst, htr⟩ := h
        have hwv : w = v := Except.ok.inj hv
        subst hwv
        subst hc
        subst hst
        subst htr
        exact ⟨rfl, rfl, fun _ => rfl, fun w2 hw2 => Option.noConfusion hw2⟩
      | error e => simp at h

/-- A fetch standing for a concrete `get item` round trip. -/
def c8Fetch (s : CmdrState) : Outcome JVal :=
  ⟨.ok (.jobj [("field1", .jstr "value1")]), s, [.dispatch ["bw", "get", "item", "x", "--session", "k"]]⟩

theorem c8_get_info_cached_once_witness :
    get_info_generic c8Fetch (some (.jobj [("field1", .jstr "value1")])) stU =
      ⟨.ok (.jobj [("field1", .jstr "value1")]),
       some (.jobj [("field1", .jstr "value1")]), stU, []⟩ :=
  (c8_get_info_cached_once c8Fetch none stU (.jobj [("field1", .jstr "value1")])
    (some (.jobj [("field1", .jstr "value1")])) stU
    [.dispatch ["bw", "get", "item", "x", "--session", "k"]] rfl).1

/-! ## C10 — attachments cannot be refetched after a sync -/

/-- C10: once a synchronization has cleared an attachment's pre-seeded
snapshot, `get_info` calls the overridden `get_info_from_bw`, which raises
`NotImplementedError`; the cache stays absent, so every subsequent call
fails the same way — the snapshot can never be refetched. -/
theorem c10_attachment_info_gone_after_sync (a : AttachmentObj) :
    (AttachmentObj.sync a).get_info = (.error .notImplemented, AttachmentObj.sync a) := rfl

/-! ## C4 — resolution entry points: proxy or not-found -/

/-- The single search result used to exercise the collection lookup. -/
def c4Obj : JVal :=
  .jobj [("object", .jstr "collection"), ("id", .jstr "col-id"), ("name", .jstr "backups")]

def c4Line : String := "[one collection]"

def c4Env : Env :=
  { run := fun _ => [c4Line],
    parse := fun x => if x = c4Line then some (.jarr [c4Obj]) else none }

/-- C4 (code bug): on a successful search, the bare-collection entry point
`BitwardenCollection.find_collection` does not produce a proxy or a
not-found failure — it raises `TypeError`, because the proxy construction
`BitwardenCollection(find_info_res['id'])` omits the required
`bw_commander`/`bw_id` split (one positional argument where the
constructor requires two).  The parallel
`BitwardenOrganization.find_organization` on the same output builds the
pre-seeded proxy as the spec describes. -/
theorem c4_find_collection_crashes :
    (find_collection_static c4Env stU "backups").1 = .error .typeError ∧
    (find_organization c4Env stU "backups").1 =
      .ok { bw_id := .jstr "col-id", info_cache := some c4Obj,
            collections_cache := [] } :=
  ⟨rfl, rfl⟩

/-! ## C7 — coupling of the attachments flag and the attachment list -/

/-- A `get_info` call touches only the snapshot field of an item: the attachment
list and the fetched flag pass through unchanged. -/
theorem get_info_preserves_attachment_fields (env : Env) (st : CmdrState)
    (it : ItemObj) :
    (ItemObj.get_info env st it).item.attachments_cache = it.attachments_cache ∧
    (ItemObj.get_info env st it).item.attachments_have_been_downloaded
      = it.attachments_have_been_downloaded := by
  unfold ItemObj.get_info
  cases get_info_generic (ItemObj.get_info_from_bw env it) it.info_cache st with
  | mk r c st1 tr => exact ⟨rfl, rfl⟩

/-- When the loop step returns a list, the fetched flag is up and the
cache is exactly the returned list. -/
theorem get_attachments_build_ok (it1 : ItemObj) (st1 : CmdrState)
    (tr : List Event) (p : List AttachmentObj × Option BwError)
    (res : List AttachmentObj)
    (h : (get_attachments_build it1 st1 tr p).result = .ok res) :
    (get_attachments_build it1 st1 tr p).item.attachments_have_been_downloaded = true ∧
    (get_attachments_build it1 st1 tr p).item.attachments_cache = some res := by
  obtain ⟨objs, oe⟩ := p
  cases oe with
  | none =>
    have h2 : (Except.ok objs : Except BwError (List AttachmentObj))
        = Except.ok res := h
    have h3 : objs = res := Except.ok.inj h2
    refine ⟨rfl, ?_⟩
    show (some objs : Option (List AttachmentObj)) = some res
    rw [h3]
  | some e =>
    have h2 : (Except.error e : Except BwError (List AttachmentObj))
        = Except.ok res := h
    exact Except.noConfusion h2

/-- When the `attachments`-field step returns a list, the fetched flag is
up and the cache is exactly the returned list (given the cache was reset
to the empty list beforehand, as `get_attachments` always does). -/
theorem get_attachments_field_ok (itOrig it1 : ItemObj) (st1 : CmdrState)
    (tr : List Event) (ov : Option JVal) (res : List AttachmentObj)
    (hpres1 : it1.attachments_cache = some [])
    (h : (get_attachments_field itOrig it1 st1 tr ov).result = .ok res) :
    (get_attachments_field itOrig it1 st1 tr ov).item.attachments_have_been_downloaded = true ∧
    (get_attachments_field itOrig it1 st1 tr ov).item.attachments_cache = some res := by
  cases ov with
  | none =>
    have h2 : (Except.ok (it1.attachments_cache.getD [])
        : Except BwError (List AttachmentObj)) = Except.ok res := h
    have h3 : it1.attachments_cache.getD [] = res := Except.ok.inj h2
    rw [hpres1] at h3
    simp only [Option.getD_some] at h3
    refine ⟨rfl, ?_⟩
    show it1.attachments_cache = some res
    rw [hpres1, h3]
  | some av =>
    cases av with
    | jarr l =>
      exact get_attachments_build_ok it1 st1 tr
        (buildAttachObjs itOrig.bw_id (it1.attachments_cache.getD []) l) res h
    | jstr s2 =>
      have h2 : (Except.error BwError.typeError
          : Except BwError (List AttachmentObj)) = Except.ok res := h
      exact Except.noConfusion h2
    | jnum n =>
      have h2 : (Except.error BwError.typeError
          : Except BwError (List AttachmentObj)) = Except.ok res := h
      exact Except.noConfusion h2
    | jbool b =>
      have h2 : (Except.error BwError.typeError
          : Except BwError (List AttachmentObj)) = Except.ok res := h
      exact Except.noConfusion h2
    | jnull =>
      have h2 : (Except.error BwError.typeError
          : Except BwError (List AttachmentObj)) = Except.ok res := h
      exact Except.noConfusion h2
    | jobj f2 =>
      have h2 : (Except.error BwError.typeError
          : Except BwError (List AttachmentObj)) = Except.ok res := h
      exact Except.noConfusion h2

/-- When it returns a list, the post-fetch tail of `get_attachments`
raises the fetched flag and caches exactly the returned list (given that
the cache was reset to the empty list before the fetch, as
`get_attachments` always does). -/
theorem get_attachments_post_ok (itOrig it1 : ItemObj) (st1 : CmdrState)
    (tr : List Event) (v : JVal) (res : List AttachmentObj)
    (hpres1 : it1.attachments_cache = some [])
    (h : (get_attachments_post itOrig it1 st1 tr v).result = .ok res) :
    (get_attachments_post itOrig it1 st1 tr v).item.attachments_have_been_downloaded = true ∧
    (get_attachments_post itOrig it1 st1 tr v).item.attachments_cache = some res := by
  have hother : ∀ (h2 : (Except.ok (it1.attachments_cache.getD [])
      : Except BwError (List AttachmentObj)) = Except.ok res),
      it1.attachments_cache = some res := by
    intro h2
    have h3 : it1.attachments_cache.getD [] = res := Except.ok.inj h2
    rw [hpres1] at h3
    simp only [Option.getD_some] at h3
    rw [hpres1, h3]
  cases v with
  | jobj fields =>
    exact get_attachments_field_ok itOrig it1 st1 tr
      (List.lookup "attachments" fields) res hpres1 h
  | jstr s2 => exact ⟨rfl, hother h⟩
  | jnum n => exact ⟨rfl, hother h⟩
  | jbool b => exact ⟨rfl, hother h⟩
  | jnull => exact ⟨rfl, hother h⟩
  | jarr l => exact ⟨rfl, hother h⟩

/-- A fresh item proxy: nothing cached, flag down. -/
def c7Item : ItemObj :=
  { bw_id := .jstr "item-1", info_cache := none,
    attachments_have_been_downloaded := false, attachments_cache := none }

/-- C7 (counterexample): `create_upload_attachment` changes the attachment
list (absent before, present after) while leaving the "attachments
fetched" flag untouched — the two fields are deliberately NOT updated
together by this operation (the source comments "don't modify the 'have
been downloaded' flag!"). -/
theorem c7_counterexample :
    c7Item.attachments_cache = none ∧
    ((ItemObj.create_upload_attachment env0 stU c7Item "file.tar").item.attachments_cache).isSome
      = true ∧
    (ItemObj.create_upload_attachment env0 stU c7Item "file.tar").item.attachments_have_been_downloaded
      = c7Item.attachments_have_been_downloaded :=
  ⟨rfl, rfl, rfl⟩

/-- C7 (amended): `sync` and (successful) `get_attachments` update the
flag and the list together — `sync` clears the list and lowers the flag,
a `get_attachments` that returns raises the flag and caches exactly the
returned list — but `create_upload_attachment` appends to the list without
ever modifying the flag. -/
theorem c7_flag_list_coupling (env : Env) (st : CmdrState) (it : ItemObj)
    (file : String) :
    ((ItemObj.sync it).attachments_cache = none ∧
      (ItemObj.sync it).attachments_have_been_downloaded = false) ∧
    ((ItemObj.create_upload_attachment env st it file).item.attachments_have_been_downloaded
      = it.attachments_have_been_downloaded) ∧
    (∀ res, (ItemObj.get_attachments env st it).result = .ok res →
      (ItemObj.get_attachments env st it).item.attachments_have_been_downloaded = true ∧
      (ItemObj.get_attachments env st it).item.attachments_cache = some res) := by
  refine ⟨⟨rfl, rfl⟩, ?_, ?_⟩
  · unfold ItemObj.create_upload_attachment
    split
    · rfl
    · split <;> rfl
  · intro res hres
    by_cases hc : (it.attachments_cache.isSome && it.attachments_have_been_downloaded) = true
    · simp only [ItemObj.get_attachments, hc, if_true] at hres ⊢
      have hsome := (Bool.and_eq_true _ _ |>.mp hc).1
      have hflag := (Bool.and_eq_true _ _ |>.mp hc).2
      refine ⟨hflag, ?_⟩
      have hres2 : it.attachments_cache.getD [] = res := Except.ok.inj hres
      cases hcc : it.attachments_cache with
      | none => rw [hcc] at hsome; simp at hsome
      | some l =>
        rw [hcc] at hres2
        simp only [Option.getD_some] at hres2
        rw [hres2]
    · rw [Bool.not_eq_true] at hc
      simp only [ItemObj.get_attachments, hc, Bool.false_eq_true, if_false] at hres ⊢
      cases hg : ItemObj.get_info env st { it with attachments_cache := some [] } with
      | mk r it1 st1 tr =>
        rw [hg] at hres
        have hpres1 : it1.attachments_cache = some [] := by
          have hp := (get_info_preserves_attachment_fields env st
            { it with attachments_cache := some [] }).1
          rw [hg] at hp
          exact hp
        cases r with
        | error e =>
          have hres2 : (Except.error e : Except BwError (List AttachmentObj))
              = Except.ok res := hres
          exact Except.noConfusion hres2
        | ok item_details =>
          have hres2 : (get_attachments_post it it1 st1 tr item_details).result
              = Except.ok res := hres
          exact get_attachments_post_ok it it1 st1 tr item_details res hpres1 hres2

/-- C7 witness: an item whose attachments are already cached and flagged;
`get_attachments` returns them, and the amended theorem's conjuncts hold
at this input. -/
def c7CachedItem : ItemObj :=
  { bw_id := .jstr "item-1", info_cache := none,
    attachments_have_been_downloaded := true, attachments_cache := some [] }

theorem c7_flag_list_coupling_witness :
    ((ItemObj.sync c7CachedItem).attachments_cache = none ∧
      (ItemObj.sync c7CachedItem).attachments_have_been_downloaded = false) ∧
    ((ItemObj.create_upload_attachment env0 stU c7CachedItem "file.tar").item.attachments_have_been_downloaded
      = c7CachedItem.attachments_have_been_downloaded) ∧
    ((ItemObj.get_attachments env0 stU c7CachedItem).item.attachments_have_been_downloaded = true ∧
      (ItemObj.get_attachments env0 stU c7CachedItem).item.attachments_cache = some []) :=
  ⟨(c7_flag_list_coupling env0 stU c7CachedItem "file.tar").1,
   (c7_flag_list_coupling env0 stU c7CachedItem "file.tar").2.1,
   (c7_flag_list_coupling env0 stU c7CachedItem "file.tar").2.2 [] rfl⟩

end AutoBackup
